import Mathlib

/-!
Verification of the core of `src/authorizers/basicauth.py`: the Basic-Auth
header decoder (`basicauth_decode`), the ARN reference parser (`parse_arn`)
and the policy builder (`AuthPolicy`).  Python strings are modelled as Lean
`String` (a wrapper over `List Char`); Python byte strings as `List Nat`;
Python exceptions as the `Err` error type of an `Except` result.  Functions
keep the names of the source where Lean allows it.
-/

namespace LambdaBasicauth

/-- The exceptions that the embedded code can raise.  `decodeError` is the
module-level `DecodeError` class; `typeError`, `valueError` and
`binasciiError` are the built-in `TypeError`, `ValueError` and
`binascii.Error`; `invalidVerb`, `invalidPath` and `emptyPolicy` are the
three `NameError` raises in `AuthPolicy` (invalid HTTP verb, invalid
resource path, no statements defined). -/
inductive Err
  | decodeError
  | typeError
  | valueError
  | binasciiError
  | invalidVerb
  | invalidPath
  | emptyPolicy
deriving DecidableEq, Repr

deriving instance DecidableEq for Except

/-- `true` exactly when the computation raised. -/
def isErr {α : Type} : Except Err α → Bool
  | .error _ => true
  | .ok _ => false

/-! ### Python string methods over `List Char`

The Lean `String` library implements several of its functions by
well-founded recursion, which the kernel cannot evaluate; the Python
string methods the source uses are therefore implemented here directly
over the character list. -/

/-- A Python whitespace character (the ASCII set stripped by `str.strip`). -/
def pyIsSpace (c : Char) : Bool :=
  c = ' ' || c = '\t' || c = '\n' || c = '\r' || c = '\x0b' || c = '\x0c'

/-- Python `s.strip()`: remove leading and trailing whitespace. -/
def pyStrip (s : String) : String :=
  (((s.toList.dropWhile pyIsSpace).reverse.dropWhile pyIsSpace).reverse).asString

/-- Python `str.lower` of one character (ASCII range). -/
def pyLowerChar (c : Char) : Char :=
  if 'A' ≤ c && c ≤ 'Z' then Char.ofNat (c.toNat + 32) else c

/-- Python `s.lower()` (ASCII range). -/
def pyLower (s : String) : String :=
  (s.toList.map pyLowerChar).asString

/-- Python `str.upper` of one character (ASCII range). -/
def pyUpperChar (c : Char) : Char :=
  if 'a' ≤ c && c ≤ 'z' then Char.ofNat (c.toNat - 32) else c

/-- Python `s.endswith(c)` for a one-character suffix. -/
def pyEndsWith (s : String) (c : Char) : Bool :=
  s.toList.getLast? = some c

/-- Python `s[1:]`: drop the first character. -/
def pyDropFirst (s : String) : String :=
  (s.toList.drop 1).asString

/-! ### Python `str.split` over `List Char` -/

/-- Prepend a character to the first piece of a split result. -/
def consHead (x : Char) : List (List Char) → List (List Char)
  | [] => [[x]]
  | h :: t => (x :: h) :: t

/-- Python `s.split(sep)` for a one-character separator `c`, over the
character list of `s`: every occurrence of `c` separates two (possibly
empty) pieces, so the result has `count + 1` pieces. -/
def splitC (c : Char) : List Char → List (List Char)
  | [] => [[]]
  | x :: xs => if x = c then [] :: splitC c xs else consHead x (splitC c xs)

/-- Python `s.split(sep, maxsplit)` for a one-character separator: at most
`maxsplit` splits are performed, the remainder is kept whole as the last
piece. -/
def pySplitC (c : Char) : Nat → List Char → List (List Char)
  | _, [] => [[]]
  | 0, l => [l]
  | n + 1, x :: xs =>
      if x = c then [] :: pySplitC c n xs else consHead x (pySplitC c (n + 1) xs)

/-! ### `parse_arn` -/

/-- The six-tuple returned by `parse_arn`:
`service, region, account_id, resource_type, resource, qualifiers`.
The last three are initialised to `None` in the source and only
conditionally assigned, hence the `Option` types. -/
structure ArnParts where
  service : String
  region : String
  account_id : String
  resource_type : Option String
  resource : Option String
  qualifiers : Option (List String)
deriving DecidableEq, Repr

/-- The classification of `resource_elements` in `parse_arn`
(`basicauth.py` lines 182-202), producing the
`(resource_type, resource, qualifiers)` triple.  Two slips of the source
are reproduced faithfully:
* in the two branches handling exactly one separator the source assigns
  the first piece to a misspelled local `resoruce_type`, so the returned
  `resource_type` stays `None`;
* in the mixed branch the source assigns the last piece to the local
  `qualifier`, while the returned variable is `qualifiers`, which stays
  `None`.
The mixed branch unpacks `resource_elements.split('/')` into exactly two
names and `remaining.split(':')` into exactly two names; any other shape
raises `ValueError`. -/
def resourceElementsParse (resource_elements : List Char) :
    Except Err (Option String × Option String × Option (List String)) :=
  if ¬ (resource_elements.contains ':' || resource_elements.contains '/') then
    .ok (none, some resource_elements.asString, none)
  else if resource_elements.contains ':' && !resource_elements.contains '/' then
    if resource_elements.count ':' = 1 then
      match splitC ':' resource_elements with
      | [_resoruce_type, resource] => .ok (none, some resource.asString, none)
      | _ => .error .valueError
    else
      match splitC ':' resource_elements with
      | resource_type :: resource :: qualifiers =>
          .ok (some resource_type.asString, some resource.asString,
               some (qualifiers.map List.asString))
      | _ => .error .valueError
  else if !resource_elements.contains ':' && resource_elements.contains '/' then
    if resource_elements.count '/' = 1 then
      match splitC '/' resource_elements with
      | [_resoruce_type, resource] => .ok (none, some resource.asString, none)
      | _ => .error .valueError
    else
      match splitC '/' resource_elements with
      | resource_type :: resource :: qualifiers =>
          .ok (some resource_type.asString, some resource.asString,
               some (qualifiers.map List.asString))
      | _ => .error .valueError
  else
    match splitC '/' resource_elements with
    | [resource_type, remaining] =>
        match splitC ':' remaining with
        | [resource, _qualifier] =>
            .ok (some resource_type.asString, some resource.asString, none)
        | _ => .error .valueError
    | _ => .error .valueError

/-- `parse_arn` (`basicauth.py` lines 168-202), over the character list of
the input.  The starred unpacking
`*_, service, region, account_id, resource_elements = arn_str.split(':', 5)`
requires at least four pieces, raising `ValueError` otherwise; the last
four pieces are bound right to left. -/
def parse_arn_chars (l : List Char) : Except Err ArnParts :=
  match (pySplitC ':' 5 l).reverse with
  | resource_elements :: account_id :: region :: service :: _ =>
      match resourceElementsParse resource_elements with
      | .error e => .error e
      | .ok (resource_type, resource, qualifiers) =>
          .ok ⟨service.asString, region.asString, account_id.asString,
               resource_type, resource, qualifiers⟩
  | _ => .error .valueError

/-- `parse_arn` on the input string. -/
def parse_arn (arn_str : String) : Except Err ArnParts :=
  parse_arn_chars arn_str.toList

/-! ### `basicauth_decode` -/

/-- Value of a base64 alphabet character. -/
def b64charVal (c : Char) : Option Nat :=
  if 'A' ≤ c && c ≤ 'Z' then some (c.toNat - 65)
  else if 'a' ≤ c && c ≤ 'z' then some (c.toNat - 71)
  else if '0' ≤ c && c ≤ '9' then some (c.toNat + 4)
  else if c = '+' then some 62
  else if c = '/' then some 63
  else none

/-- Decode a list of six-bit values into bytes, group by group; a trailing
group of a single value cannot encode a byte and raises `binascii.Error`. -/
def b64groups : List Nat → Except Err (List Nat)
  | [] => .ok []
  | [_] => .error .binasciiError
  | [a, b] => .ok [a * 4 + b / 16]
  | [a, b, c] => .ok [a * 4 + b / 16, b % 16 * 16 + c / 4]
  | a :: b :: c :: d :: rest =>
      match b64groups rest with
      | .error e => .error e
      | .ok tail => .ok ([a * 4 + b / 16, b % 16 * 16 + c / 4, c % 4 * 64 + d] ++ tail)

/-- `base64.b64decode` on a `str` argument: characters outside the base64
alphabet (including the padding `=`) are discarded by `binascii.a2b_base64`
and the six-bit values are packed into bytes. -/
def b64decode (s : String) : Except Err (List Nat) :=
  b64groups (s.toList.filterMap b64charVal)

/-- `base64.b64decode` applied to a `list` object.  The source calls
`b64decode(components)` on the whole list `components` instead of on its
element, and CPython raises
`TypeError: argument should be a bytes-like object or ASCII string, not list`.
The operation has no successful outcome, hence the `Empty` value type. -/
def b64decodeOfList (_components : List String) : Except Err Empty :=
  .error .typeError

/-- Python `bytes.split(sep, maxsplit)` with a `str` separator.  The source
calls `.split(':', 1)` on the `bytes` returned by `b64decode`, and CPython
raises `TypeError: a bytes-like object is required, not str`.  The
operation has no successful outcome, hence the `Empty` value type. -/
def bytesSplitStrSep (_b : List Nat) (_sep : String) (_maxsplit : Nat) :
    Except Err Empty :=
  .error .typeError

/-- `basicauth_decode` (`basicauth.py` lines 205-242).  The source takes the
header as bytes and UTF-8 decodes it first; the embedding starts from the
decoded string (a UTF-8 decoding failure raises `DecodeError` and is outside
the claims).  Both credential-producing branches wrap their body in
`try/except` blocks that convert any exception to `DecodeError`; inside
them the `TypeError`s modelled by `b64decodeOfList` and `bytesSplitStrSep`
are therefore converted to `DecodeError`, and the final
`return unquote(username), unquote(password)` line is unreachable. -/
def basicauth_decode (encoded_str : String) : Except Err (String × String) :=
  let components := (splitC ' ' (pyStrip encoded_str).toList).map List.asString
  if components.length = 1 then
    match b64decodeOfList components with
    | .error _ => .error .decodeError
    | .ok e => e.elim
  else if components.length = 2 then
    let first_component := pyStrip (components.getD 0 "")
    let second_component := pyStrip (components.getD 1 "")
    if pyLower first_component = "basic" then
      match b64decode second_component with
      | .error _ => .error .decodeError
      | .ok decoded =>
          match bytesSplitStrSep decoded ":" 1 with
          | .error _ => .error .decodeError
          | .ok e => e.elim
    else .error .decodeError
  else .error .decodeError

/-! ### `AuthPolicy` -/

/-- The attribute names defined directly in the body of the `HttpVerb`
class (`basicauth.py` lines 32-40): the seven HTTP verbs and `ALL`. -/
def httpVerbOwnAttrs : List String :=
  ["GET", "POST", "PUT", "PATCH", "HEAD", "DELETE", "OPTIONS", "ALL"]

/-- Attribute names that every Python class additionally exposes because
they are inherited from `object` or provided by the metaclass `type`
(`__name__`, `__bases__`, `__mro__`, `__call__` and the like):
`hasattr(HttpVerb, v)` is true for all of these in every CPython 3.

This list is an UNDER-approximation of the true set: CPython also
exposes further version-dependent names (for example `__or__` exists
from 3.10 on), so membership here is only used in the sound direction:
every listed name really is an attribute of the class.  Conversely the
development relies on the ABSENCE of a name from the model only for
names, such as `TRACE`, that are attributes of the class in no CPython
version.  No theorem below asserts a biconditional over this fringe. -/
def pythonClassInheritedAttrs : List String :=
  ["__class__", "__delattr__", "__dict__", "__dir__", "__doc__", "__eq__",
   "__format__", "__ge__", "__getattribute__", "__gt__", "__hash__",
   "__init__", "__init_subclass__", "__le__", "__lt__", "__module__",
   "__ne__", "__new__", "__reduce__", "__reduce_ex__", "__repr__",
   "__setattr__", "__sizeof__", "__str__", "__subclasshook__",
   "__weakref__", "mro",
   "__name__", "__qualname__", "__bases__", "__base__", "__mro__",
   "__call__", "__subclasses__", "__instancecheck__", "__subclasscheck__",
   "__basicsize__", "__itemsize__", "__dictoffset__", "__weakrefoffset__",
   "__flags__", "__prepare__"]

/-- Python `hasattr(HttpVerb, verb)`: true when `verb` names either an
attribute written in the class body or an inherited attribute.  Because
`pythonClassInheritedAttrs` under-approximates the inherited names, this
function under-approximates the true `hasattr`, and is used accordingly
(see the comment there). -/
def hasattrHttpVerb (verb : String) : Bool :=
  httpVerbOwnAttrs.contains verb || pythonClassInheritedAttrs.contains verb

/-- A character of the class in `pathRegex = "^[/.a-zA-Z0-9-\x2a]+$"`. -/
def pathRegexChar (c : Char) : Bool :=
  c = '/' || c = '.' || ('a' ≤ c && c ≤ 'z') || ('A' ≤ c && c ≤ 'Z') ||
    ('0' ≤ c && c ≤ '9') || c = '-' || c = '*'

/-- Python `re.match(AuthPolicy.pathRegex, resource)` converted to a
boolean: the anchored pattern matches one or more class characters; in
Python the `$` anchor also matches just before a single trailing
newline. -/
def pathRegexMatches (s : String) : Bool :=
  (!s.toList.isEmpty && s.toList.all pathRegexChar) ||
    (pyEndsWith s '\n' && !s.toList.dropLast.isEmpty &&
      s.toList.dropLast.all pathRegexChar)

/-- The `conditions` argument of `_add_method`: `None`, or a (possibly
empty) mapping, modelled as an association list. -/
abbrev Conditions := Option (List (String × String))

/-- An entry of `allow_methods` / `deny_methods`: the dict
`{resourceArn: ..., conditions: ...}` appended by `_add_method`. -/
structure MethodGrant where
  resourceArn : String
  conditions : Conditions
deriving DecidableEq, Repr

/-- The per-instance state of an `AuthPolicy` object after `__init__`:
the constructor arguments plus the class-level defaults `restapiid`,
`region` and `stage` (all `"*"`), and the two grant lists, which
`__init__` rebinds to fresh empty lists on every instance. -/
structure AuthPolicy where
  aws_accountid : String
  principalId : String
  restapiid : String
  region : String
  stage : String
  allow_methods : List MethodGrant
  deny_methods : List MethodGrant
deriving DecidableEq, Repr

/-- `AuthPolicy.__init__(principal, aws_accountid)`: stores the two
arguments and binds fresh, empty, instance-owned grant lists; the other
attributes keep the class defaults. -/
def AuthPolicy.init (principal aws_accountid : String) : AuthPolicy :=
  ⟨aws_accountid, principal, "*", "*", "*", [], []⟩

/-- The f-string on `basicauth.py` line 97:
`arn:aws:execute-api:{region}:{aws_accountid}:{restapiid}/{stage}/{verb}/{resource}`. -/
def mkResourceArn (p : AuthPolicy) (verb resource : String) : String :=
  "arn:aws:execute-api:" ++ p.region ++ ":" ++ p.aws_accountid ++ ":" ++
    p.restapiid ++ "/" ++ p.stage ++ "/" ++ verb ++ "/" ++ resource

/-- `AuthPolicy._add_method` (`basicauth.py` lines 83-109).  Validates the
verb with `verb != "*" and not hasattr(HttpVerb, verb)` and the resource
path against `pathRegex`; if the resource ends with `"/"` it drops the
FIRST character (`resource = resource[1:]`, the slip the comment calls
removing the trailing slash); then appends the grant to `allow_methods`
or `deny_methods` by case-insensitive comparison of `effect`, silently
doing nothing for any other effect value. -/
def AuthPolicy.add_method (p : AuthPolicy) (effect verb resource : String)
    (conditions : Conditions) : Except Err AuthPolicy :=
  if verb != "*" && !hasattrHttpVerb verb then
    .error .invalidVerb
  else if !pathRegexMatches resource then
    .error .invalidPath
  else
    let resource1 := if pyEndsWith resource '/' then pyDropFirst resource else resource
    let resource_arn := mkResourceArn p verb resource1
    if pyLower effect = "allow" then
      .ok { p with allow_methods := p.allow_methods ++ [⟨resource_arn, conditions⟩] }
    else if pyLower effect = "deny" then
      .ok { p with deny_methods := p.deny_methods ++ [⟨resource_arn, conditions⟩] }
    else
      .ok p

/-- `AuthPolicy.allow_all_methods`: `_add_method("Allow", HttpVerb.ALL, "*", [])`. -/
def AuthPolicy.allow_all_methods (p : AuthPolicy) : Except Err AuthPolicy :=
  p.add_method "Allow" "*" "*" (some [])

/-- A statement of the produced policy document, with the optional
`Condition` key. -/
structure Statement where
  Action : String
  Effect : String
  Resource : List String
  Condition : Conditions
deriving DecidableEq, Repr

/-- `effect[:1].upper() + effect[1:].lower()` from `_get_empty_statement`. -/
def capitalizeEffect (effect : String) : String :=
  ((effect.toList.take 1).map pyUpperChar ++ (effect.toList.drop 1).map pyLowerChar).asString

/-- `AuthPolicy._get_empty_statement` (`basicauth.py` lines 111-119). -/
def get_empty_statement (effect : String) : Statement :=
  ⟨"execute-api:Invoke", capitalizeEffect effect, [], none⟩

/-- The test `curMethod['conditions'] is None or len(curMethod['conditions']) == 0`. -/
def condIsEmpty : Conditions → Bool
  | none => true
  | some l => l.isEmpty

/-- The body of the loop in `_get_statement_for_effect`: the accumulator
holds the list of emitted conditional statements and the single merged
statement being filled in. -/
def buildStep (effect : String) (acc : List Statement × Statement)
    (m : MethodGrant) : List Statement × Statement :=
  if condIsEmpty m.conditions then
    (acc.1, { acc.2 with Resource := acc.2.Resource ++ [m.resourceArn] })
  else
    (acc.1 ++
      [{ get_empty_statement effect with
          Resource := [m.resourceArn], Condition := m.conditions }],
     acc.2)

/-- `AuthPolicy._get_statement_for_effect` (`basicauth.py` lines 121-140).
When `methods` is non-empty the merged statement is appended after the
loop UNCONDITIONALLY, even when every grant carried conditions and its
`Resource` list is still empty. -/
def get_statement_for_effect (effect : String) (methods : List MethodGrant) :
    List Statement :=
  if methods.length > 0 then
    let result := methods.foldl (buildStep effect) ([], get_empty_statement effect)
    result.1 ++ [result.2]
  else []

/-- The inner `policyDocument` dict. -/
structure PolicyDocument where
  Version : String
  Statement : List Statement
deriving DecidableEq, Repr

/-- The dict returned by `AuthPolicy.build`. -/
structure PolicyResponse where
  principalId : String
  policyDocument : PolicyDocument
deriving DecidableEq, Repr

/-- `AuthPolicy.build` (`basicauth.py` lines 146-165): raises when both
grant lists are empty, otherwise emits the Allow statements followed by
the Deny statements. -/
def AuthPolicy.build (p : AuthPolicy) : Except Err PolicyResponse :=
  if p.allow_methods.isEmpty && p.deny_methods.isEmpty then
    .error .emptyPolicy
  else
    .ok ⟨p.principalId,
      ⟨"2012-10-17",
        get_statement_for_effect "Allow" p.allow_methods ++
          get_statement_for_effect "Deny" p.deny_methods⟩⟩

/-! ### Specification-side definitions

Definitions written from the wording of the specification, for comparison
with the source-derived functions above. -/

/-- Spec-side: the one-resource statement emitted for each conditioned
grant, in grant order. -/
def conditionedStatements (effect : String) (methods : List MethodGrant) :
    List Statement :=
  (methods.filter (fun m => !condIsEmpty m.conditions)).map
    (fun m =>
      { get_empty_statement effect with
          Resource := [m.resourceArn], Condition := m.conditions })

/-- Spec-side: the merged statement whose resource list collects the
unconditioned grants of the effect in insertion order. -/
def mergedStatement (effect : String) (methods : List MethodGrant) : Statement :=
  { get_empty_statement effect with
      Resource := (methods.filter (fun m => condIsEmpty m.conditions)).map
        (fun m => m.resourceArn) }

/-- Spec-side: the condition under which `parse_arn` raises, written from
the amended claim: fewer than four colon-delimited top-level fields, or a
trailing `resource_elements` blob that contains both separators but is not
of the shape `resourcetype/resource:qualifier` (exactly one `/`, whose
remainder holds exactly one `:`). -/
def parse_arn_fails_spec (l : List Char) : Bool :=
  (splitC ':' l).length < 4 ||
    (let blob := (pySplitC ':' 5 l).getLastD []
     blob.contains ':' && blob.contains '/' &&
       (blob.count '/' != 1 ||
         ((splitC '/' blob).getD 1 []).count ':' != 1))

/-! ### Helper lemmas -/

theorem consHead_length (x : Char) (ll : List (List Char)) (h : ll ≠ []) :
    (consHead x ll).length = ll.length := by
  cases ll with
  | nil => exact absurd rfl h
  | cons a t => rfl

theorem splitC_ne_nil (c : Char) (l : List Char) : splitC c l ≠ [] := by
  induction l with
  | nil => simp [splitC]
  | cons x xs ih =>
    simp only [splitC]
    split
    · simp
    · cases h : splitC c xs with
      | nil => exact absurd h ih
      | cons a t => simp [consHead]

theorem pySplitC_ne_nil (c : Char) (n : Nat) (l : List Char) :
    pySplitC c n l ≠ [] := by
  induction l generalizing n with
  | nil => simp [pySplitC]
  | cons x xs ih =>
    cases n with
    | zero => simp [pySplitC]
    | succ m =>
      simp only [pySplitC]
      split
      · simp
      · cases h : pySplitC c (m + 1) xs with
        | nil => exact absurd h (ih (m + 1))
        | cons a t => simp [consHead]

theorem length_splitC (c : Char) (l : List Char) :
    (splitC c l).length = l.count c + 1 := by
  induction l with
  | nil => simp [splitC]
  | cons x xs ih =>
    simp only [splitC]
    split
    · next h => simp [List.count_cons, h, ih]
    · next h =>
      rw [consHead_length x _ (splitC_ne_nil c xs), ih]
      simp [List.count_cons, h]

theorem length_pySplitC (c : Char) (n : Nat) (l : List Char) :
    (pySplitC c n l).length = min (l.count c) n + 1 := by
  induction l generalizing n with
  | nil => simp [pySplitC]
  | cons x xs ih =>
    cases n with
    | zero => simp [pySplitC]
    | succ m =>
      simp only [pySplitC]
      split
      · next h =>
        simp [List.count_cons, h, ih m]
        omega
      · next h =>
        rw [consHead_length x _ (pySplitC_ne_nil c (m + 1) xs), ih (m + 1)]
        simp [List.count_cons, h]

theorem contains_eq_true_iff_mem (c : Char) (l : List Char) :
    l.contains c = true ↔ c ∈ l := by
  simp [List.contains_iff_exists_mem_beq]

theorem contains_eq_true_iff_count_ne_zero (c : Char) (l : List Char) :
    l.contains c = true ↔ l.count c ≠ 0 := by
  rw [contains_eq_true_iff_mem, ← List.count_pos_iff]
  omega

theorem getLastD_of_reverse_cons {α : Type} {l rest : List α} {b d : α}
    (h : l.reverse = b :: rest) : l.getLastD d = b := by
  rw [List.getLastD_eq_getLast?, List.getLast?_eq_head?_reverse, h]
  rfl

theorem basicauth_decode_always_raises (s : String) :
    basicauth_decode s = .error .decodeError := by
  unfold basicauth_decode
  dsimp only
  repeat (first | rfl | split)

theorem isErr_resourceElementsParse (blob : List Char) :
    isErr (resourceElementsParse blob) =
      (blob.contains ':' && blob.contains '/' &&
        (blob.count '/' != 1 ||
          ((splitC '/' blob).getD 1 []).count ':' != 1)) := by
  by_cases hc : blob.contains ':' = true
  · by_cases hs : blob.contains '/' = true
    · have hcount : blob.count '/' ≠ 0 :=
        (contains_eq_true_iff_count_ne_zero '/' blob).mp hs
      simp only [resourceElementsParse, hc, hs]
      rw [if_neg (by simp), if_neg (by simp), if_neg (by simp)]
      rcases h0 : splitC '/' blob with _ | ⟨rt, _ | ⟨rem, _ | ⟨y, t⟩⟩⟩
      · exact absurd h0 (splitC_ne_nil '/' blob)
      · have hl := length_splitC '/' blob
        rw [h0] at hl
        simp at hl
        exact (hcount (by omega)).elim
      · have hl := length_splitC '/' blob
        rw [h0] at hl
        have h1 : blob.count '/' = 1 := by
          simp at hl
          omega
        dsimp only
        rcases h2 : splitC ':' rem with _ | ⟨r, _ | ⟨q, _ | ⟨y2, t2⟩⟩⟩
        · exact absurd h2 (splitC_ne_nil ':' rem)
        · have hl2 := length_splitC ':' rem
          rw [h2] at hl2
          simp at hl2
          simp [isErr, h1, hl2]
        · have hl2 := length_splitC ':' rem
          rw [h2] at hl2
          have h3 : rem.count ':' = 1 := by
            simp at hl2
            omega
          simp [isErr, h1, h3]
        · have hl2 := length_splitC ':' rem
          rw [h2] at hl2
          have h3 : rem.count ':' = t2.length + 2 := by
            simp at hl2
            omega
          simp [isErr, h1, h3, bne_iff_ne]
      · have hl := length_splitC '/' blob
        rw [h0] at hl
        have h1 : blob.count '/' = t.length + 2 := by
          simp at hl
          omega
        simp [isErr, h1, bne_iff_ne]
    · have hcnt0 : blob.count ':' ≠ 0 :=
        (contains_eq_true_iff_count_ne_zero ':' blob).mp hc
      have hs' : blob.contains '/' = false := by simpa using hs
      simp only [resourceElementsParse, hc, hs']
      rw [if_neg (by simp), if_pos (by simp)]
      by_cases h1 : blob.count ':' = 1
      · rw [if_pos h1]
        have hl := length_splitC ':' blob
        rw [h1] at hl
        rcases List.length_eq_two.mp hl with ⟨a, b, hab⟩
        rw [hab]
        simp [isErr, hs']
      · rw [if_neg h1]
        rcases h2 : splitC ':' blob with _ | ⟨a, _ | ⟨b, t⟩⟩
        · exact absurd h2 (splitC_ne_nil ':' blob)
        · have hl := length_splitC ':' blob
          rw [h2] at hl
          simp at hl
          exact (hcnt0 (by omega)).elim
        · simp [isErr, hs']
  · have hc' : blob.contains ':' = false := by simpa using hc
    by_cases hs : blob.contains '/' = true
    · have hcnt0 : blob.count '/' ≠ 0 :=
        (contains_eq_true_iff_count_ne_zero '/' blob).mp hs
      simp only [resourceElementsParse, hc', hs]
      rw [if_neg (by simp), if_neg (by simp), if_pos (by simp)]
      by_cases h1 : blob.count '/' = 1
      · rw [if_pos h1]
        have hl := length_splitC '/' blob
        rw [h1] at hl
        rcases List.length_eq_two.mp hl with ⟨a, b, hab⟩
        rw [hab]
        simp [isErr, hc']
      · rw [if_neg h1]
        rcases h2 : splitC '/' blob with _ | ⟨a, _ | ⟨b, t⟩⟩
        · exact absurd h2 (splitC_ne_nil '/' blob)
        · have hl := length_splitC '/' blob
          rw [h2] at hl
          simp at hl
          exact (hcnt0 (by omega)).elim
        · simp [isErr, hc']
    · have hs' : blob.contains '/' = false := by simpa using hs
      simp only [resourceElementsParse, hc', hs']
      rw [if_pos (by simp)]
      simp [isErr, hc']

theorem parse_arn_chars_isErr (l : List Char) :
    isErr (parse_arn_chars l) = parse_arn_fails_spec l := by
  unfold parse_arn_chars parse_arn_fails_spec
  have hlen := length_pySplitC ':' 5 l
  have hlenf := length_splitC ':' l
  dsimp only
  rcases h0 : (pySplitC ':' 5 l).reverse with _ | ⟨b, _ | ⟨a3, _ | ⟨a2, _ | ⟨a1, rest⟩⟩⟩⟩
  · exact absurd (List.reverse_eq_nil_iff.mp h0) (pySplitC_ne_nil ':' 5 l)
  · have hp : (pySplitC ':' 5 l).length = 1 := by
      rw [← List.length_reverse, h0]
      rfl
    have h4 : (splitC ':' l).length < 4 := by omega
    simp [isErr, h4]
  · have hp : (pySplitC ':' 5 l).length = 2 := by
      rw [← List.length_reverse, h0]
      rfl
    have h4 : (splitC ':' l).length < 4 := by omega
    simp [isErr, h4]
  · have hp : (pySplitC ':' 5 l).length = 3 := by
      rw [← List.length_reverse, h0]
      rfl
    have h4 : (splitC ':' l).length < 4 := by omega
    simp [isErr, h4]
  · have hp : (pySplitC ':' 5 l).length = rest.length + 4 := by
      rw [← List.length_reverse, h0]
      simp
    have h4 : ¬(splitC ':' l).length < 4 := by omega
    have hblob : (pySplitC ':' 5 l).getLastD [] = b :=
      getLastD_of_reverse_cons h0
    rw [hblob, ← isErr_resourceElementsParse b]
    cases hre : resourceElementsParse b with
    | error e => simp [isErr, h4, hre]
    | ok v =>
      rcases v with ⟨rt, r, q⟩
      simp [isErr, h4, hre]

theorem foldl_buildStep (effect : String) (methods : List MethodGrant)
    (accS : List Statement) (accM : Statement) :
    methods.foldl (buildStep effect) (accS, accM) =
      (accS ++ conditionedStatements effect methods,
       { accM with Resource := (accM.Resource ++ (methods.filter (fun m => condIsEmpty m.conditions)).map (fun m => m.resourceArn)) }) := by
  induction methods generalizing accS accM with
  | nil => simp [conditionedStatements]
  | cons m ms ih =>
    simp only [List.foldl_cons, buildStep]
    by_cases hm : condIsEmpty m.conditions = true
    · rw [if_pos hm, ih]
      simp [conditionedStatements, List.filter_cons, hm, List.append_assoc]
    · rw [if_neg hm, ih]
      simp [conditionedStatements, List.filter_cons, hm, List.append_assoc]

theorem get_statement_for_effect_eq (effect : String) (methods : List MethodGrant)
    (h : methods ≠ []) :
    get_statement_for_effect effect methods =
      conditionedStatements effect methods ++ [mergedStatement effect methods] := by
  unfold get_statement_for_effect
  rw [if_pos (by cases methods with | nil => exact absurd rfl h | cons a t => simp)]
  rw [foldl_buildStep]
  simp [mergedStatement, get_empty_statement]

/-! ### Claim theorems -/

/-- C1: the claim says `decode("Basic " ++ b64("alice:s3cr3t"))` returns the
pair `("alice", "s3cr3t")`.  In the code the two-token branch computes
`b64decode(second_component).split(':', 1)`; `b64decode` returns `bytes`
and `bytes.split` with a `str` separator raises `TypeError`, which the bare
`except` converts to `DecodeError` — so the call raises `DecodeError`, and
indeed every input of `basicauth_decode` raises `DecodeError`. -/
theorem basicauth_decode_basic_header_raises :
    basicauth_decode "Basic YWxpY2U6czNjcjN0" = .error .decodeError ∧
    ∀ s : String, basicauth_decode s = .error .decodeError :=
  ⟨basicauth_decode_always_raises _, basicauth_decode_always_raises⟩

/-- C2: the claim says a bare one-token input `b64("alice:s3cr3t")` decodes
to the pair.  In the code the one-token branch calls `b64decode(components)`
on the whole `list` object, which raises `TypeError`, converted to
`DecodeError` by the `except` block: the embedded input splits into exactly
one token, and decoding raises `DecodeError`. -/
theorem basicauth_decode_single_token_raises :
    ((splitC ' ' (pyStrip "YWxpY2U6czNjcjN0").toList).map List.asString).length = 1 ∧
    basicauth_decode "YWxpY2U6czNjcjN0" = .error .decodeError :=
  ⟨by decide, basicauth_decode_always_raises _⟩

/-- C3 counterexample: the claim says every input with fewer than six
colon-delimited top-level fields raises; `"a:b:c:d"` has four fields and
`parse_arn` succeeds on it, because the starred unpacking only needs four
pieces. -/
theorem parse_arn_four_fields_succeeds :
    (splitC ':' ("a:b:c:d").toList).length < 6 ∧
    parse_arn "a:b:c:d" = .ok ⟨"a", "b", "c", none, some "d", none⟩ := by
  decide

/-- C3 (amended): `parse_arn` raises exactly when the input has fewer than
FOUR colon-delimited top-level fields, or when the trailing
`resource_elements` blob contains both `:` and `/` but is not of the shape
`type/rest` with exactly one `/` where `rest` holds exactly one `:` (the
two exact unpackings in the mixed branch); in every other case the
sub-fields pass through unvalidated. -/
theorem parse_arn_error_characterization (s : String) :
    isErr (parse_arn s) = parse_arn_fails_spec s.toList :=
  parse_arn_chars_isErr s.toList

/-- C4 counterexample: the claim says the merged statement of an effect is
skipped entirely when that effect has no unconditioned grant.  A builder
holding exactly one conditioned Allow grant builds TWO Allow statements:
the conditional one, and the merged one with an empty `Resource` list,
because `_get_statement_for_effect` appends the merged statement whenever
the method list of the effect is non-empty. -/
theorem build_emits_empty_merged_statement :
    ((AuthPolicy.init "user" "123").add_method "Allow" "GET" "items"
        (some [("aws:SourceIp", "203.0.113.0/24")])).map
      (fun q => q.build.map (fun r => r.policyDocument.Statement)) =
    .ok (.ok
      [⟨"execute-api:Invoke", "Allow", ["arn:aws:execute-api:*:123:*/*/GET/items"],
        some [("aws:SourceIp", "203.0.113.0/24")]⟩,
       ⟨"execute-api:Invoke", "Allow", [], none⟩]) := by
  decide

/-- C4 (amended): for a builder holding at least one grant, `build` returns
the conditioned Allow statements in grant order, then the merged Allow
statement (present whenever ANY Allow grant exists, its resource list the
unconditioned Allow arns in insertion order, possibly empty), then the
conditioned Deny statements in grant order, then the merged Deny statement
under the same rule; an effect with no grants at all contributes nothing. -/
theorem build_statement_order (p : AuthPolicy)
    (h : p.allow_methods ≠ [] ∨ p.deny_methods ≠ []) :
    p.build = .ok ⟨p.principalId, ⟨"2012-10-17",
      (if p.allow_methods.isEmpty then [] else
        conditionedStatements "Allow" p.allow_methods ++
          [mergedStatement "Allow" p.allow_methods]) ++
      (if p.deny_methods.isEmpty then [] else
        conditionedStatements "Deny" p.deny_methods ++
          [mergedStatement "Deny" p.deny_methods])⟩⟩ := by
  have eA : get_statement_for_effect "Allow" p.allow_methods =
      (if p.allow_methods.isEmpty then [] else
        conditionedStatements "Allow" p.allow_methods ++
          [mergedStatement "Allow" p.allow_methods]) := by
    by_cases hA : p.allow_methods = []
    · simp [hA, get_statement_for_effect]
    · rw [get_statement_for_effect_eq _ _ hA, if_neg (by simpa [List.isEmpty_iff] using hA)]
  have eD : get_statement_for_effect "Deny" p.deny_methods =
      (if p.deny_methods.isEmpty then [] else
        conditionedStatements "Deny" p.deny_methods ++
          [mergedStatement "Deny" p.deny_methods]) := by
    by_cases hD : p.deny_methods = []
    · simp [hD, get_statement_for_effect]
    · rw [get_statement_for_effect_eq _ _ hD, if_neg (by simpa [List.isEmpty_iff] using hD)]
  unfold AuthPolicy.build
  have hne : ¬(p.allow_methods.isEmpty && p.deny_methods.isEmpty) = true := by
    rcases h with h | h <;> simp [List.isEmpty_iff] <;> tauto
  rw [if_neg hne, eA, eD]

/-- Witness for C4: a builder with a conditioned Allow grant, an
unconditioned Allow grant and an unconditioned Deny grant builds the four
pieces in the stated order. -/
theorem build_statement_order_witness :
    ((⟨"123", "user", "*", "*", "*",
        [⟨"arnA1", some [("k", "v")]⟩, ⟨"arnA2", none⟩],
        [⟨"arnD1", none⟩]⟩ : AuthPolicy).allow_methods ≠ [] ∨
      (⟨"123", "user", "*", "*", "*",
        [⟨"arnA1", some [("k", "v")]⟩, ⟨"arnA2", none⟩],
        [⟨"arnD1", none⟩]⟩ : AuthPolicy).deny_methods ≠ []) ∧
    (⟨"123", "user", "*", "*", "*",
        [⟨"arnA1", some [("k", "v")]⟩, ⟨"arnA2", none⟩],
        [⟨"arnD1", none⟩]⟩ : AuthPolicy).build =
      .ok ⟨"user", ⟨"2012-10-17",
        [⟨"execute-api:Invoke", "Allow", ["arnA1"], some [("k", "v")]⟩,
         ⟨"execute-api:Invoke", "Allow", ["arnA2"], none⟩,
         ⟨"execute-api:Invoke", "Deny", ["arnD1"], none⟩]⟩⟩ :=
  ⟨by decide,
   (build_statement_order
      ⟨"123", "user", "*", "*", "*",
        [⟨"arnA1", some [("k", "v")]⟩, ⟨"arnA2", none⟩],
        [⟨"arnD1", none⟩]⟩ (by decide)).trans (by decide)⟩

/-- C5 (code bug): the claim says a blob with exactly one separator splits
into `(resourceType, resource)`.  In both single-separator branches the
source assigns the first piece to a misspelled local `resoruce_type`, so
the returned `resource_type` stays `None`: on
`arn:aws:s3:us-east-1:123:bucket/object` the code returns
`resource_type = None` instead of `"bucket"`, and likewise for the
single-colon shape. -/
theorem parse_arn_resource_type_lost :
    parse_arn "arn:aws:s3:us-east-1:123:bucket/object" =
      .ok ⟨"s3", "us-east-1", "123", none, some "object", none⟩ ∧
    parse_arn "arn:aws:sns:us-east-1:123:mytype:myresource" =
      .ok ⟨"sns", "us-east-1", "123", none, some "myresource", none⟩ := by
  decide

/-- C6 (code bug): the claim says the mixed `type/resource:qualifier` shape
returns a one-element qualifier sequence.  The source assigns the piece
after the colon to the local `qualifier` but returns the variable
`qualifiers`, which stays `None`: the qualifier is computed and dropped. -/
theorem parse_arn_qualifier_lost :
    parse_arn "arn:aws:execute-api:us-east-1:123:myapi/prod:v1" =
      .ok ⟨"execute-api", "us-east-1", "123", some "myapi", some "prod", none⟩ := by
  decide

/-- C7 (amended): `_add_method` raises the invalid-verb error only for a
verb that is neither `"*"` nor an attribute of the `HttpVerb` class.  The
attributes comprise the seven HTTP verbs, the class-body constant `ALL`
and the names every class inherits from `object` and its metaclass
`type`, so the accepted set strictly contains the eight-element set the
claim names: besides `"ALL"` (the counterexample) also for example
`"__name__"` passes validation, as the second conjunct shows.
`"TRACE"`, which is an attribute of the class in no CPython version,
fails with the invalid-verb error as the claim says. -/
theorem add_method_verb_validation :
    (∀ (p : AuthPolicy) (effect verb resource : String) (conditions : Conditions),
      (verb = "*" ∨ hasattrHttpVerb verb = true) →
      p.add_method effect verb resource conditions ≠ .error .invalidVerb) ∧
    (AuthPolicy.init "user" "123").add_method "Allow" "__name__" "items" none =
      .ok ⟨"123", "user", "*", "*", "*",
        [⟨"arn:aws:execute-api:*:123:*/*/__name__/items", none⟩], []⟩ ∧
    (AuthPolicy.init "user" "123").add_method "Allow" "TRACE" "items" none =
      .error .invalidVerb := by
  refine ⟨?_, by decide, by decide⟩
  intro p effect verb resource conditions hv hEq
  unfold AuthPolicy.add_method at hEq
  have hcond : ¬(verb != "*" && !hasattrHttpVerb verb) = true := by
    rcases hv with h | h <;> simp [h]
  rw [if_neg hcond] at hEq
  split at hEq
  · exact Err.noConfusion (Except.error.inj hEq)
  · dsimp only at hEq
    split at hEq
    · exact Except.noConfusion hEq
    · split at hEq
      · exact Except.noConfusion hEq
      · exact Except.noConfusion hEq

/-- Witness for C7: the verb `"POST"` satisfies the hypothesis of the
acceptance direction and is not rejected with the invalid-verb error. -/
theorem add_method_verb_validation_witness :
    ("POST" = "*" ∨ hasattrHttpVerb "POST" = true) ∧
    (AuthPolicy.init "user" "123").add_method "Allow" "POST" "items" none ≠
      .error .invalidVerb :=
  ⟨Or.inr (by decide),
   add_method_verb_validation.1 (AuthPolicy.init "user" "123") "Allow" "POST" "items" none
     (Or.inr (by decide))⟩

/-- C7 counterexample: the verb `"ALL"` is outside the eight-element set
`{*, GET, POST, PUT, PATCH, HEAD, DELETE, OPTIONS}` yet `_add_method`
accepts it, because `hasattr(HttpVerb, "ALL")` is true. -/
theorem add_method_accepts_ALL :
    ("ALL" ∉ ["*", "GET", "POST", "PUT", "PATCH", "HEAD", "DELETE", "OPTIONS"]) ∧
    (AuthPolicy.init "user" "123").add_method "Allow" "ALL" "items" none =
      .ok ⟨"123", "user", "*", "*", "*",
        [⟨"arn:aws:execute-api:*:123:*/*/ALL/items", none⟩], []⟩ := by
  decide

/-- C8: with a valid verb and path, an effect that is not case-insensitively
`allow` or `deny` makes `_add_method` return with the builder unchanged:
the if/elif chain on `effect.lower()` has no else branch, so the grant is
silently dropped and no error is raised. -/
theorem add_method_unknown_effect_noop (p : AuthPolicy) (effect verb resource : String)
    (conditions : Conditions)
    (hverb : verb = "*" ∨ hasattrHttpVerb verb = true)
    (hpath : pathRegexMatches resource = true)
    (hallow : pyLower effect ≠ "allow")
    (hdeny : pyLower effect ≠ "deny") :
    p.add_method effect verb resource conditions = .ok p := by
  unfold AuthPolicy.add_method
  have hv : ¬(verb != "*" && !hasattrHttpVerb verb) = true := by
    rcases hverb with h | h <;> simp [h]
  rw [if_neg hv, if_neg (by simp [hpath])]
  dsimp only
  rw [if_neg hallow, if_neg hdeny]

/-- Witness for C8: the effect `"Permit"` with verb `GET` and path `items`
leaves a fresh builder untouched. -/
theorem add_method_unknown_effect_noop_witness :
    (("GET" = "*" ∨ hasattrHttpVerb "GET" = true) ∧ pathRegexMatches "items" = true ∧
      pyLower "Permit" ≠ "allow" ∧ pyLower "Permit" ≠ "deny") ∧
    (AuthPolicy.init "user" "123").add_method "Permit" "GET" "items" none =
      .ok (AuthPolicy.init "user" "123") :=
  ⟨⟨by decide, by decide, by decide, by decide⟩,
   add_method_unknown_effect_noop (AuthPolicy.init "user" "123") "Permit" "GET" "items" none
     (by decide) (by decide) (by decide) (by decide)⟩

/-- C9: for a valid path ending in `/`, `_add_method` drops the FIRST
character of the path (`resource = resource[1:]`), not the trailing slash,
before splicing it into the ARN template; a path not ending in `/` is used
unmodified. -/
theorem add_method_trailing_slash_strips_first (p : AuthPolicy) (verb resource : String)
    (conditions : Conditions)
    (hverb : verb = "*" ∨ hasattrHttpVerb verb = true)
    (hpath : pathRegexMatches resource = true) :
    p.add_method "Allow" verb resource conditions =
      .ok { p with allow_methods := p.allow_methods ++
        [⟨mkResourceArn p verb
            (if pyEndsWith resource '/' then pyDropFirst resource else resource),
          conditions⟩] } := by
  unfold AuthPolicy.add_method
  have hv : ¬(verb != "*" && !hasattrHttpVerb verb) = true := by
    rcases hverb with h | h <;> simp [h]
  rw [if_neg hv, if_neg (by simp [hpath])]
  dsimp only
  rw [if_pos (by decide)]

/-- Witness for C9: the path `items/` produces an ARN ending in `tems/` —
the leading `i` is stripped and the trailing slash kept. -/
theorem add_method_trailing_slash_strips_first_witness :
    (pathRegexMatches "items/" = true) ∧
    (AuthPolicy.init "user" "123").add_method "Allow" "GET" "items/" none =
      .ok ⟨"123", "user", "*", "*", "*",
        [⟨"arn:aws:execute-api:*:123:*/*/GET/tems/", none⟩], []⟩ :=
  ⟨by decide,
   (add_method_trailing_slash_strips_first (AuthPolicy.init "user" "123") "GET" "items/" none
      (Or.inr (by decide)) (by decide)).trans (by decide)⟩

/-- C10: a freshly constructed builder holds the empty grant lists bound by
the constructor (`__init__` rebinds both to new empty lists, shadowing the
class-level defaults, so no state is shared between instances), and
`build` on it raises the empty-policy error. -/
theorem build_on_fresh_instance_raises (principal aws_accountid : String) :
    (AuthPolicy.init principal aws_accountid).build = .error .emptyPolicy := rfl

end LambdaBasicauth
